import Mathlib

/-!
Verification of the PhizeUp window-tiling configuration for the Phoenix window
manager (repository `phoenix-configurations`).

The development shallowly embeds the geometry/partition engine of
`src/phizeup/phizeup.js` (which contains two concatenated generations of the
script: "version A", lines 1-433, and "version B", lines 434-911) and, where a
claim depends on it, the older legacy variant `src/unnamed/part_000`.

Modelling conventions:
* JavaScript numbers are exact rationals (`ℚ`);
* `Math.round` is `jsRound` (round half toward positive infinity) and
  `Math.sign` is `jsSign`;
* a JavaScript `undefined` lookup result is `Option.none`;
* a thrown `TypeError` is an explicit error constructor;
* object-literal lookup (`subFrames[direction]`, `this[direction]`) is match
  on the object's own keys;
* string literals that are mojibake-encoded in the source files are reproduced
  codepoint-for-codepoint using `\u` escapes.
-/

namespace PhizeUp

/-- JavaScript `Math.round` on exact rationals: round half toward positive
infinity, `Math.round(q) = ⌊q + 1/2⌋`. -/
def jsRound (q : ℚ) : ℤ := ⌊q + 1 / 2⌋

/-- JavaScript `Math.sign` on exact rationals. -/
def jsSign (q : ℚ) : ℤ := if q < 0 then -1 else if 0 < q then 1 else 0

/-- A Phoenix frame `{x, y, width, height}` (screen points, exact rationals). -/
structure Frame where
  x : ℚ
  y : ℚ
  width : ℚ
  height : ℚ
deriving DecidableEq, Repr

/-- The `change` closure of `getSubFrame` (phizeup.js:269-274):
`change(original)(changeBy) = Math.round(original + (changeBy || 0))`.
A call with no argument (`x()`, `y()`) is modelled by passing `0`. -/
def change (original : ℚ) (changeBy : ℚ) : ℚ := (jsRound (original + changeBy) : ℚ)

/-- `narrow = Math.round(fullWide / 2)` (phizeup.js:279). -/
def narrow (parentFrame : Frame) : ℚ := (jsRound (parentFrame.width / 2) : ℚ)

/-- `halfHight = Math.round(fullHight / 2)` (phizeup.js:280). -/
def halfHight (parentFrame : Frame) : ℚ := (jsRound (parentFrame.height / 2) : ℚ)

/-- `oneThird = Math.round(fullWide / 3)` (phizeup.js:281). -/
def oneThird (parentFrame : Frame) : ℚ := (jsRound (parentFrame.width / 3) : ℚ)

/-- `twoThirds = Math.round(oneThird * 2)` (phizeup.js:282). -/
def twoThirds (parentFrame : Frame) : ℚ := (jsRound (oneThird parentFrame * 2) : ℚ)

/-- `getSubFrame(parentFrame, direction)` (phizeup.js:252-308).  The
`subFrames` object lookup yields `undefined` (here `none`) for a direction
outside its 20 keys. -/
def getSubFrame (p : Frame) (direction : String) : Option Frame :=
  match direction with
  | "left" => some { y := change p.y 0, x := change p.x 0, width := narrow p, height := p.height }
  | "right" => some { y := change p.y 0, x := change p.x (narrow p), width := narrow p, height := p.height }
  | "up" => some { y := change p.y 0, x := change p.x 0, width := p.width, height := halfHight p }
  | "down" => some { y := change p.y (halfHight p), x := change p.x 0, width := p.width, height := halfHight p }
  | "topLeft" => some { y := change p.y 0, x := change p.x 0, width := narrow p, height := halfHight p }
  | "bottomLeft" => some { y := change p.y (halfHight p), x := change p.x 0, width := narrow p, height := halfHight p }
  | "topRight" => some { y := change p.y 0, x := change p.x (narrow p), width := narrow p, height := halfHight p }
  | "bottomRight" => some { y := change p.y (halfHight p), x := change p.x (narrow p), width := narrow p, height := halfHight p }
  | "centre" => some { y := change p.y (halfHight p / 2), x := change p.x (narrow p / 2), width := narrow p, height := halfHight p }
  | "leftThird" => some { y := change p.y 0, x := change p.x 0, width := oneThird p, height := p.height }
  | "centreThird" => some { y := change p.y 0, x := change p.x (oneThird p), width := oneThird p, height := p.height }
  | "rightThird" => some { y := change p.y 0, x := change p.x (twoThirds p), width := oneThird p, height := p.height }
  | "left2Thirds" => some { y := change p.y 0, x := change p.x 0, width := twoThirds p, height := p.height }
  | "right2Thirds" => some { y := change p.y 0, x := change p.x (oneThird p), width := twoThirds p, height := p.height }
  | "topLeftSix" => some { y := change p.y 0, x := change p.x 0, width := oneThird p, height := halfHight p }
  | "topCentreSix" => some { y := change p.y 0, x := change p.x (oneThird p), width := oneThird p, height := halfHight p }
  | "topRightSix" => some { y := change p.y 0, x := change p.x (twoThirds p), width := oneThird p, height := halfHight p }
  | "botLeftSix" => some { y := change p.y (halfHight p), x := change p.x 0, width := oneThird p, height := halfHight p }
  | "botCentreSix" => some { y := change p.y (halfHight p), x := change p.x (oneThird p), width := oneThird p, height := halfHight p }
  | "botRightSix" => some { y := change p.y (halfHight p), x := change p.x (twoThirds p), width := oneThird p, height := halfHight p }
  | _ => none

/-- The observable host mutation performed by `setInSubFrame`
(phizeup.js:224-229): `window.setFrame(newWindowFrame)` is invoked
unconditionally, with whatever `getSubFrame` produced (`none` models the
JavaScript `undefined` value being passed to the mutator). -/
inductive SetFrameCall where
  | called (newWindowFrame : Option Frame)
deriving DecidableEq, Repr

/-- `setInSubFrame(window, parentFrame, direction)` (phizeup.js:224-229):
resolves the sub-frame and passes the result straight to `window.setFrame`,
with no guard against an `undefined` resolution result. -/
def setInSubFrame (parentFrame : Frame) (direction : String) : SetFrameCall :=
  SetFrameCall.called (getSubFrame parentFrame direction)

/-- The `change` closure of the legacy `getSubFrame`
(src/unnamed/part_000:271-276): `change(original)(changeBy) = original +
(changeBy || 0)` — no rounding.  A call with no argument is modelled by
passing `0`. -/
def changeLegacy (original : ℚ) (changeBy : ℚ) : ℚ := original + changeBy

/-- `parentHalfWide = parentWidth / 2` (src/unnamed/part_000:281). -/
def parentHalfWide (parentFrame : Frame) : ℚ := parentFrame.width / 2

/-- `parentHalfHigh = parentHeight / 2` (src/unnamed/part_000:282). -/
def parentHalfHigh (parentFrame : Frame) : ℚ := parentFrame.height / 2

/-- `parentThird = parentWidth / 3` (src/unnamed/part_000:283). -/
def parentThird (parentFrame : Frame) : ℚ := parentFrame.width / 3

/-- `parentTwoThirds = parentThird * 2` (src/unnamed/part_000:284). -/
def parentTwoThirds (parentFrame : Frame) : ℚ := parentThird parentFrame * 2

/-- The legacy `getSubFrame(parentFrame, direction)` of
`src/unnamed/part_000` (lines 254-310): same 20-key `subFrames` object, but
no `Math.round` anywhere — origins and derived sizes are exact fractions. -/
def getSubFrameLegacy (p : Frame) (direction : String) : Option Frame :=
  match direction with
  | "left" => some { x := changeLegacy p.x 0, y := changeLegacy p.y 0, width := parentHalfWide p, height := p.height }
  | "right" => some { x := changeLegacy p.x (parentHalfWide p), y := changeLegacy p.y 0, width := parentHalfWide p, height := p.height }
  | "up" => some { x := changeLegacy p.x 0, y := changeLegacy p.y 0, width := p.width, height := parentHalfHigh p }
  | "down" => some { x := changeLegacy p.x 0, y := changeLegacy p.y (parentHalfHigh p), width := p.width, height := parentHalfHigh p }
  | "topLeft" => some { x := changeLegacy p.x 0, y := changeLegacy p.y 0, width := parentHalfWide p, height := parentHalfHigh p }
  | "bottomLeft" => some { x := changeLegacy p.x 0, y := changeLegacy p.y (parentHalfHigh p), width := parentHalfWide p, height := parentHalfHigh p }
  | "topRight" => some { x := changeLegacy p.x (parentHalfWide p), y := changeLegacy p.y 0, width := parentHalfWide p, height := parentHalfHigh p }
  | "bottomRight" => some { x := changeLegacy p.x (parentHalfWide p), y := changeLegacy p.y (parentHalfHigh p), width := parentHalfWide p, height := parentHalfHigh p }
  | "centre" => some { x := changeLegacy p.x (parentHalfWide p / 2), y := changeLegacy p.y (parentHalfHigh p / 2), width := parentHalfWide p, height := parentHalfHigh p }
  | "leftThird" => some { x := changeLegacy p.x 0, y := changeLegacy p.y 0, width := parentThird p, height := p.height }
  | "centreThird" => some { x := changeLegacy p.x (parentThird p), y := changeLegacy p.y 0, width := parentThird p, height := p.height }
  | "rightThird" => some { x := changeLegacy p.x (parentTwoThirds p), y := changeLegacy p.y 0, width := parentThird p, height := p.height }
  | "left2Thirds" => some { x := changeLegacy p.x 0, y := changeLegacy p.y 0, width := parentTwoThirds p, height := p.height }
  | "right2Thirds" => some { x := changeLegacy p.x (parentThird p), y := changeLegacy p.y 0, width := parentTwoThirds p, height := p.height }
  | "topLeftSix" => some { x := changeLegacy p.x 0, y := changeLegacy p.y 0, width := parentThird p, height := parentHalfHigh p }
  | "topCentreSix" => some { x := changeLegacy p.x (parentThird p), y := changeLegacy p.y 0, width := parentThird p, height := parentHalfHigh p }
  | "topRightSix" => some { x := changeLegacy p.x (parentTwoThirds p), y := changeLegacy p.y 0, width := parentThird p, height := parentHalfHigh p }
  | "botLeftSix" => some { x := changeLegacy p.x 0, y := changeLegacy p.y (parentHalfHigh p), width := parentThird p, height := parentHalfHigh p }
  | "botCentreSix" => some { x := changeLegacy p.x (parentThird p), y := changeLegacy p.y (parentHalfHigh p), width := parentThird p, height := parentHalfHigh p }
  | "botRightSix" => some { x := changeLegacy p.x (parentTwoThirds p), y := changeLegacy p.y (parentHalfHigh p), width := parentThird p, height := parentHalfHigh p }
  | _ => none

/-- A rational is integer-valued when it is the cast of some integer. -/
def isIntegerValued (q : ℚ) : Prop := ∃ n : ℤ, q = (n : ℚ)

/-- The closed rectangle of points covered by a frame. -/
def closedRect (f : Frame) : Set (ℚ × ℚ) :=
  {q | f.x ≤ q.1 ∧ q.1 ≤ f.x + f.width ∧ f.y ≤ q.2 ∧ q.2 ≤ f.y + f.height}

/-- The interior (open rectangle) of a frame. -/
def openRect (f : Frame) : Set (ℚ × ℚ) :=
  {q | f.x < q.1 ∧ q.1 < f.x + f.width ∧ f.y < q.2 ∧ q.2 < f.y + f.height}

/-- A Phoenix screen: stable identifier plus its frames in the coordinate
spaces the scripts query (`visibleFrame`, `flippedVisibleFrame`,
`flippedFrame`). -/
structure Screen where
  identifier : ℕ
  visibleFrame : Frame
  flippedVisibleFrame : Frame
  flippedFrame : Frame
deriving DecidableEq, Repr

/-- The focused window's state as queried by the migration handlers:
its current frame and its current screen. -/
structure WindowState where
  frame : Frame
  screen : Screen
deriving DecidableEq, Repr

/-- Observable outcome of one run of a `putWindowScreen` handler:
an alert with no mutation, a JavaScript error from indexing an empty
candidate list (`candidateOtherScreens[0]` being `undefined`), or a
`window.setFrame(newFrame)` call. -/
inductive Outcome where
  | abort (alert : String)
  | jsUndefinedAccess
  | apply (newFrame : Frame)
deriving DecidableEq, Repr

/-- The new-frame computation of `putWindowScreen` (phizeup.js:377-397):
`newX`/`newY` from the destination screen's flipped visible frame; if
`keepMaximised` and the old frame's width and height equal the current
screen's visible-frame width and height, the destination's size is used,
otherwise width/height are `Math.min` of old and destination sizes. -/
def planFrame (keepMaximised : Bool) (oldFrame currentScreenFrame newScreenFrame : Frame) : Frame :=
  if keepMaximised = true ∧ currentScreenFrame.width = oldFrame.width ∧ currentScreenFrame.height = oldFrame.height then
    { y := newScreenFrame.y, x := newScreenFrame.x, width := newScreenFrame.width, height := newScreenFrame.height }
  else
    { y := newScreenFrame.y, x := newScreenFrame.x, width := min oldFrame.width newScreenFrame.width,
      height := min oldFrame.height newScreenFrame.height }

/-- One run of the `putWindowScreen(toScreen, keepMaximised)` handler of
phizeup.js (version A lines 351-407, version B lines 829-885; both
generations compute the same outcome).  The `toScreen` parameter is unused by
the source code, which always picks `candidateOtherScreens[0]`, the first
screen whose identifier differs from the current screen's. -/
def putWindowScreenRun (toScreen : String) (keepMaximised : Bool) (focused : Option WindowState)
    (screens : List Screen) : Outcome :=
  match focused with
  | none => Outcome.abort "NO Windows for current app"
  | some window =>
    if screens.length < 2 then Outcome.abort "NO SCREENS"
    else
      match (screens.filter (fun s => s.identifier != window.screen.identifier)).head? with
      | none => Outcome.jsUndefinedAccess
      | some newScreen =>
        Outcome.apply (planFrame keepMaximised window.frame window.screen.visibleFrame
          newScreen.flippedVisibleFrame)

/-- One run of the legacy `putWindowScreen(toScreen)` handler of
`src/unnamed/part_000` (lines 352-419): no `keepMaximised` parameter, the
destination frame is the candidate screen's *flipped frame*, and the new
frame keeps the old frame's width and height unchanged. -/
def putWindowScreenRunLegacy (toScreen : String) (focused : Option WindowState)
    (screens : List Screen) : Outcome :=
  match focused with
  | none => Outcome.abort "NO Windows for current app"
  | some window =>
    if screens.length < 2 then Outcome.abort "NO SCREENS"
    else
      match (screens.filter (fun s => s.identifier != window.screen.identifier)).head? with
      | none => Outcome.jsUndefinedAccess
      | some newScreen =>
        Outcome.apply
          { x := newScreen.flippedFrame.x
            y := newScreen.flippedFrame.y
            width := window.frame.width
            height := window.frame.height }

/-- The window frame after an outcome is processed: only an `apply` outcome
invokes `window.setFrame`, every other outcome leaves the frame unchanged. -/
def finalWindowFrame (o : Outcome) (oldFrame : Frame) : Frame :=
  match o with
  | Outcome.apply f => f
  | _ => oldFrame

/-- The `directions` compass table of `changeDirection` (phizeup.js:413-417),
rows indexed by `ydir+1`, columns by `xdir+1`.  The string entries are
reproduced codepoint-for-codepoint from the source file, where the arrow
glyphs are mojibake-encoded at rest (for example the up-right arrow appears
as the six codepoints `‚ÜóÔ∏é`); the centre
entry is the plain letter `o`. -/
def directions : List (List String) :=
  [["‚ÜñÔ∏é", "‚Üë", "‚ÜóÔ∏é"],
   ["‚Üê", "o", "‚Üí"],
   ["‚ÜôÔ∏é", "‚Üì", "‚ÜòÔ∏é"]]

/-- `changeDirection(newFrame, oldFrame)` (phizeup.js:410-421):
`directions[ydir+1][xdir+1]` with `xdir = Math.sign(newFrame.x - oldFrame.x)`
and `ydir = Math.sign(newFrame.y - oldFrame.y)`.  An out-of-bounds index
would yield `undefined` (`none`). -/
def changeDirection (newFrame oldFrame : Frame) : Option String :=
  (directions.get? (jsSign (newFrame.y - oldFrame.y) + 1).toNat).bind
    (fun row => row.get? (jsSign (newFrame.x - oldFrame.x) + 1).toNat)

/-- The `Movements` label table of phizeup.js version A (lines 151-183): the
own-key lookup `this[direction]`, `none` for a name outside the 21 keys.
Label strings are reproduced byte-for-byte from the source file (they are
mojibake-encoded at rest). -/
def movementsLookup (direction : String) : Option String :=
  match direction with
  | "up" => some "\u00ac\u03a9\n\u201a\u00f3\u00ba\u00d4\u220f\u00e9\u201a\u00f3\u00ba\u00d4\u220f\u00e9\n\u201a\u00f3\u00aa\u00d4\u220f\u00e9\u201a\u00f3\u00aa\u00d4\u220f\u00e9\n\u201a\u00dc\u00eb"
  | "down" => some "\u00ac\u03a9\n\u201a\u00f3\u00aa\u00d4\u220f\u00e9\u201a\u00f3\u00aa\u00d4\u220f\u00e9\n\u201a\u00f3\u00ba\u00d4\u220f\u00e9\u201a\u00f3\u00ba\u00d4\u220f\u00e9\n\u201a\u00dc\u00ec"
  | "left" => some "\u00ac\u03a9\n\u201a\u00f3\u00ba\u00d4\u220f\u00e9\u201a\u00f3\u00aa\u00d4\u220f\u00e9\n\u201a\u00f3\u00ba\u00d4\u220f\u00e9\u201a\u00f3\u00aa\u00d4\u220f\u00e9\n\u201a\u00dc\u00ea"
  | "right" => some "\u00ac\u03a9\n\u201a\u00f3\u00aa\u00d4\u220f\u00e9\u201a\u00f3\u00ba\u00d4\u220f\u00e9\n\u201a\u00f3\u00aa\u00d4\u220f\u00e9\u201a\u00f3\u00ba\u00d4\u220f\u00e9\n\u201a\u00dc\u00ed"
  | "topLeft" => some "\u00ac\u00ba\n\u201a\u00f3\u00ba\u00d4\u220f\u00e9\u201a\u00f3\u00aa\u00d4\u220f\u00e9\n\u201a\u00f3\u00aa\u00d4\u220f\u00e9\u201a\u00f3\u00aa\u00d4\u220f\u00e9\n\u201a\u00dc\u00f1\u00d4\u220f\u00e9"
  | "topRight" => some "\u00ac\u00ba\n\u201a\u00f3\u00aa\u00d4\u220f\u00e9\u201a\u00f3\u00ba\u00d4\u220f\u00e9\n\u201a\u00f3\u00aa\u00d4\u220f\u00e9\u201a\u00f3\u00aa\u00d4\u220f\u00e9\n\u201a\u00dc\u00f3\u00d4\u220f\u00e9"
  | "bottomLeft" => some "\u00ac\u00ba\n\u201a\u00f3\u00aa\u00d4\u220f\u00e9\u201a\u00f3\u00aa\u00d4\u220f\u00e9\n\u201a\u00f3\u00ba\u00d4\u220f\u00e9\u201a\u00f3\u00aa\u00d4\u220f\u00e9\n\u201a\u00dc\u00f4\u00d4\u220f\u00e9"
  | "bottomRight" => some "\u00ac\u00ba\n\u201a\u00f3\u00aa\u00d4\u220f\u00e9\u201a\u00f3\u00aa\u00d4\u220f\u00e9\n\u201a\u00f3\u00aa\u00d4\u220f\u00e9\u201a\u00f3\u00ba\u00d4\u220f\u00e9\n\u201a\u00dc\u00f2\u00d4\u220f\u00e9"
  | "maximised" => some "\u201a\u00dc\u00f1\u00d4\u220f\u00e9\u201a\u00dc\u00eb\u201a\u00dc\u00f3\u00d4\u220f\u00e9\n\u201a\u00dc\u00ea\u201a\u00f3\u00ba\u00d4\u220f\u00e9\u201a\u00dc\u00ed\n\u201a\u00dc\u00f4\u00d4\u220f\u00e9\u201a\u00dc\u00ec\u201a\u00dc\u00f2\u00d4\u220f\u00e9"
  | "centre" => some "\u201a\u00dc\u00f2\u00d4\u220f\u00e9\u201a\u00dc\u00ec\u201a\u00dc\u00f4\u00d4\u220f\u00e9\n\u201a\u00dc\u00ed\u201a\u00df\u00e0\u201a\u00dc\u00ea\n\u201a\u00dc\u00f3\u00d4\u220f\u00e9\u201a\u00dc\u00eb\u201a\u00dc\u00f1\u00d4\u220f\u00e9"
  | "leftThird" => some "\u201a\u00d6\u00ec\n\u201a\u00f3\u00ba\u00d4\u220f\u00e9\u201a\u00f3\u00aa\u00d4\u220f\u00e9\u201a\u00f3\u00aa\u00d4\u220f\u00e9\n\u201a\u00f3\u00ba\u00d4\u220f\u00e9\u201a\u00f3\u00aa\u00d4\u220f\u00e9\u201a\u00f3\u00aa\u00d4\u220f\u00e9\n\u201a\u00dc\u00ea"
  | "centreThird" => some "\u201a\u00d6\u00ec\n\u201a\u00f3\u00aa\u00d4\u220f\u00e9\u201a\u00f3\u00ba\u00d4\u220f\u00e9\u201a\u00f3\u00aa\u00d4\u220f\u00e9\n\u201a\u00f3\u00aa\u00d4\u220f\u00e9\u201a\u00f3\u00ba\u00d4\u220f\u00e9\u201a\u00f3\u00aa\u00d4\u220f\u00e9\n\u201a\u00dc\u00ed\u201a\u00dc\u00ea"
  | "rightThird" => some "\u201a\u00d6\u00ec\n\u201a\u00f3\u00aa\u00d4\u220f\u00e9\u201a\u00f3\u00aa\u00d4\u220f\u00e9\u201a\u00f3\u00ba\u00d4\u220f\u00e9\n\u201a\u00f3\u00aa\u00d4\u220f\u00e9\u201a\u00f3\u00aa\u00d4\u220f\u00e9\u201a\u00f3\u00ba\u00d4\u220f\u00e9\n\u201a\u00dc\u00ed"
  | "left2Thirds" => some "\u201a\u00d6\u00ee\n\u201a\u00f3\u00ba\u00d4\u220f\u00e9\u201a\u00f3\u00ba\u00d4\u220f\u00e9\u201a\u00f3\u00aa\u00d4\u220f\u00e9\n\u201a\u00f3\u00ba\u00d4\u220f\u00e9\u201a\u00f3\u00ba\u00d4\u220f\u00e9\u201a\u00f3\u00aa\u00d4\u220f\u00e9\n\u201a\u00dc\u00ea"
  | "right2Thirds" => some "\u201a\u00d6\u00ee\n\u201a\u00f3\u00aa\u00d4\u220f\u00e9\u201a\u00f3\u00ba\u00d4\u220f\u00e9\u201a\u00f3\u00ba\u00d4\u220f\u00e9\n\u201a\u00f3\u00aa\u00d4\u220f\u00e9\u201a\u00f3\u00ba\u00d4\u220f\u00e9\u201a\u00f3\u00ba\u00d4\u220f\u00e9\n\u201a\u00dc\u00ed"
  | "topLeftSix" => some "\u201a\u00d6\u00f4\n\u201a\u00f3\u00ba\u00d4\u220f\u00e9\u201a\u00f3\u00aa\u00d4\u220f\u00e9\u201a\u00f3\u00aa\u00d4\u220f\u00e9\n\u201a\u00f3\u00aa\u00d4\u220f\u00e9\u201a\u00f3\u00aa\u00d4\u220f\u00e9\u201a\u00f3\u00aa\u00d4\u220f\u00e9\n\u201a\u00dc\u00f1\u00d4\u220f\u00e9"
  | "topCentreSix" => some "\u201a\u00d6\u00f4\n\u201a\u00f3\u00aa\u00d4\u220f\u00e9\u201a\u00f3\u00ba\u201a\u00f3\u00aa\u00d4\u220f\u00e9\n\u201a\u00f3\u00aa\u00d4\u220f\u00e9\u201a\u00f3\u00aa\u00d4\u220f\u00e9\u201a\u00f3\u00aa\u00d4\u220f\u00e9\n\u201a\u00dc\u00eb"
  | "topRightSix" => some "\u201a\u00d6\u00f4\n\u201a\u00f3\u00aa\u00d4\u220f\u00e9\u201a\u00f3\u00aa\u00d4\u220f\u00e9\u201a\u00f3\u00ba\n\u201a\u00f3\u00aa\u00d4\u220f\u00e9\u201a\u00f3\u00aa\u00d4\u220f\u00e9\u201a\u00f3\u00aa\u00d4\u220f\u00e9\n\u201a\u00dc\u00f3\u00d4\u220f\u00e9"
  | "botLeftSix" => some "\u201a\u00d6\u00f4\n\u201a\u00f3\u00aa\u00d4\u220f\u00e9\u201a\u00f3\u00aa\u00d4\u220f\u00e9\u201a\u00f3\u00aa\u00d4\u220f\u00e9\n\u201a\u00f3\u00ba\u201a\u00f3\u00aa\u00d4\u220f\u00e9\u201a\u00f3\u00aa\u00d4\u220f\u00e9\n\u201a\u00dc\u00f4\u00d4\u220f\u00e9"
  | "botCentreSix" => some "\u201a\u00d6\u00f4\n\u201a\u00f3\u00aa\u00d4\u220f\u00e9\u201a\u00f3\u00aa\u00d4\u220f\u00e9\u201a\u00f3\u00aa\u00d4\u220f\u00e9\n\u201a\u00f3\u00aa\u00d4\u220f\u00e9\u201a\u00f3\u00ba\u201a\u00f3\u00aa\u00d4\u220f\u00e9\n\u201a\u00dc\u00ec"
  | "botRightSix" => some "\u201a\u00d6\u00f4\n\u201a\u00f3\u00aa\u00d4\u220f\u00e9\u201a\u00f3\u00aa\u00d4\u220f\u00e9\u201a\u00f3\u00aa\u00d4\u220f\u00e9\n\u201a\u00f3\u00aa\u00d4\u220f\u00e9\u201a\u00f3\u00aa\u00d4\u220f\u00e9\u201a\u00f3\u00ba\n\u201a\u00dc\u00f2\u00d4\u220f\u00e9"
  | _ => none

/-- The `Movements` label table of phizeup.js version B (lines 596-628),
same 21 keys, differently (double-)mojibaked label strings. -/
def movementsLookupB (direction : String) : Option String :=
  match direction with
  | "up" => some "\u00c2\u00bd \u00e2\u2014\u00bc\u00ef\u00b8\u017d\u00e2\u2014\u00bc\u00ef\u00b8\u017d \u00e2\u2014\u00bb\u00ef\u00b8\u017d\u00e2\u2014\u00bb\u00ef\u00b8\u017d \u00e2\u2020\u2018"
  | "down" => some "\u00c2\u00bd \u00e2\u2014\u00bb\u00ef\u00b8\u017d\u00e2\u2014\u00bb\u00ef\u00b8\u017d \u00e2\u2014\u00bc\u00ef\u00b8\u017d\u00e2\u2014\u00bc\u00ef\u00b8\u017d \u00e2\u2020\u201c"
  | "left" => some "\u00c2\u00bd \u00e2\u2014\u00bc\u00ef\u00b8\u017d\u00e2\u2014\u00bb\u00ef\u00b8\u017d \u00e2\u2014\u00bc\u00ef\u00b8\u017d\u00e2\u2014\u00bb\u00ef\u00b8\u017d \u00e2\u2020"
  | "right" => some "\u00c2\u00bd\n\u00e2\u2014\u00bb\u00ef\u00b8\u017d\u00e2\u2014\u00bc\u00ef\u00b8\u017d\n\u00e2\u2014\u00bb\u00ef\u00b8\u017d\u00e2\u2014\u00bc\u00ef\u00b8\u017d\n\u00e2\u2020\u2019"
  | "topLeft" => some "\u00c2\u00bc\n\u00e2\u2014\u00bc\u00ef\u00b8\u017d\u00e2\u2014\u00bb\u00ef\u00b8\u017d\n\u00e2\u2014\u00bb\u00ef\u00b8\u017d\u00e2\u2014\u00bb\u00ef\u00b8\u017d\n\u00e2\u2020\u2013\u00ef\u00b8\u017d"
  | "topRight" => some "\u00c2\u00bc\n\u00e2\u2014\u00bb\u00ef\u00b8\u017d\u00e2\u2014\u00bc\u00ef\u00b8\u017d\n\u00e2\u2014\u00bb\u00ef\u00b8\u017d\u00e2\u2014\u00bb\u00ef\u00b8\u017d\n\u00e2\u2020\u2014\u00ef\u00b8\u017d"
  | "bottomLeft" => some "\u00c2\u00bc\n\u00e2\u2014\u00bb\u00ef\u00b8\u017d\u00e2\u2014\u00bb\u00ef\u00b8\u017d\n\u00e2\u2014\u00bc\u00ef\u00b8\u017d\u00e2\u2014\u00bb\u00ef\u00b8\u017d\n\u00e2\u2020\u2122\u00ef\u00b8\u017d"
  | "bottomRight" => some "\u00c2\u00bc\n\u00e2\u2014\u00bb\u00ef\u00b8\u017d\u00e2\u2014\u00bb\u00ef\u00b8\u017d\n\u00e2\u2014\u00bb\u00ef\u00b8\u017d\u00e2\u2014\u00bc\u00ef\u00b8\u017d\n\u00e2\u2020\u02dc\u00ef\u00b8\u017d"
  | "maximised" => some "\u00e2\u2020\u2013\u00ef\u00b8\u017d\u00e2\u2020\u2018\u00e2\u2020\u2014\u00ef\u00b8\u017d\n\u00e2\u2020\u00e2\u2014\u00bc\u00ef\u00b8\u017d\u00e2\u2020\u2019\n\u00e2\u2020\u2122\u00ef\u00b8\u017d\u00e2\u2020\u201c\u00e2\u2020\u02dc\u00ef\u00b8\u017d"
  | "centre" => some "\u00e2\u2020\u02dc\u00ef\u00b8\u017d\u00e2\u2020\u201c\u00e2\u2020\u2122\u00ef\u00b8\u017d\n\u00e2\u2020\u2019\u00e2\u00a7\u02c6\u00e2\u2020\n\u00e2\u2020\u2014\u00ef\u00b8\u017d\u00e2\u2020\u2018\u00e2\u2020\u2013\u00ef\u00b8\u017d"
  | "leftThird" => some "\u00e2\u2026\u201c\n\u00e2\u2014\u00bc\u00ef\u00b8\u017d\u00e2\u2014\u00bb\u00ef\u00b8\u017d\u00e2\u2014\u00bb\u00ef\u00b8\u017d\n\u00e2\u2014\u00bc\u00ef\u00b8\u017d\u00e2\u2014\u00bb\u00ef\u00b8\u017d\u00e2\u2014\u00bb\u00ef\u00b8\u017d\n\u00e2\u2020"
  | "centreThird" => some "\u00e2\u2026\u201c\n\u00e2\u2014\u00bb\u00ef\u00b8\u017d\u00e2\u2014\u00bc\u00ef\u00b8\u017d\u00e2\u2014\u00bb\u00ef\u00b8\u017d\n\u00e2\u2014\u00bb\u00ef\u00b8\u017d\u00e2\u2014\u00bc\u00ef\u00b8\u017d\u00e2\u2014\u00bb\u00ef\u00b8\u017d\n\u00e2\u2020\u2019\u00e2\u2020"
  | "rightThird" => some "\u00e2\u2026\u201c\n\u00e2\u2014\u00bb\u00ef\u00b8\u017d\u00e2\u2014\u00bb\u00ef\u00b8\u017d\u00e2\u2014\u00bc\u00ef\u00b8\u017d\n\u00e2\u2014\u00bb\u00ef\u00b8\u017d\u00e2\u2014\u00bb\u00ef\u00b8\u017d\u00e2\u2014\u00bc\u00ef\u00b8\u017d\n\u00e2\u2020\u2019"
  | "left2Thirds" => some "\u00e2\u2026\u201d\n\u00e2\u2014\u00bc\u00ef\u00b8\u017d\u00e2\u2014\u00bc\u00ef\u00b8\u017d\u00e2\u2014\u00bb\u00ef\u00b8\u017d\n\u00e2\u2014\u00bc\u00ef\u00b8\u017d\u00e2\u2014\u00bc\u00ef\u00b8\u017d\u00e2\u2014\u00bb\u00ef\u00b8\u017d\n\u00e2\u2020"
  | "right2Thirds" => some "\u00e2\u2026\u201d\n\u00e2\u2014\u00bb\u00ef\u00b8\u017d\u00e2\u2014\u00bc\u00ef\u00b8\u017d\u00e2\u2014\u00bc\u00ef\u00b8\u017d\n\u00e2\u2014\u00bb\u00ef\u00b8\u017d\u00e2\u2014\u00bc\u00ef\u00b8\u017d\u00e2\u2014\u00bc\u00ef\u00b8\u017d\n\u00e2\u2020\u2019"
  | "topLeftSix" => some "\u00e2\u2026\u2122\n\u00e2\u2014\u00bc\u00ef\u00b8\u017d\u00e2\u2014\u00bb\u00ef\u00b8\u017d\u00e2\u2014\u00bb\u00ef\u00b8\u017d\n\u00e2\u2014\u00bb\u00ef\u00b8\u017d\u00e2\u2014\u00bb\u00ef\u00b8\u017d\u00e2\u2014\u00bb\u00ef\u00b8\u017d\n\u00e2\u2020\u2013\u00ef\u00b8\u017d"
  | "topCentreSix" => some "\u00e2\u2026\u2122\n\u00e2\u2014\u00bb\u00ef\u00b8\u017d\u00e2\u2014\u00bc\u00e2\u2014\u00bb\u00ef\u00b8\u017d\n\u00e2\u2014\u00bb\u00ef\u00b8\u017d\u00e2\u2014\u00bb\u00ef\u00b8\u017d\u00e2\u2014\u00bb\u00ef\u00b8\u017d\n\u00e2\u2020\u2018"
  | "topRightSix" => some "\u00e2\u2026\u2122\n\u00e2\u2014\u00bb\u00ef\u00b8\u017d\u00e2\u2014\u00bb\u00ef\u00b8\u017d\u00e2\u2014\u00bc\n\u00e2\u2014\u00bb\u00ef\u00b8\u017d\u00e2\u2014\u00bb\u00ef\u00b8\u017d\u00e2\u2014\u00bb\u00ef\u00b8\u017d\n\u00e2\u2020\u2014\u00ef\u00b8\u017d"
  | "botLeftSix" => some "\u00e2\u2026\u2122\n\u00e2\u2014\u00bb\u00ef\u00b8\u017d\u00e2\u2014\u00bb\u00ef\u00b8\u017d\u00e2\u2014\u00bb\u00ef\u00b8\u017d\n\u00e2\u2014\u00bc\u00e2\u2014\u00bb\u00ef\u00b8\u017d\u00e2\u2014\u00bb\u00ef\u00b8\u017d\n\u00e2\u2020\u2122\u00ef\u00b8\u017d"
  | "botCentreSix" => some "\u00e2\u2026\u2122\n\u00e2\u2014\u00bb\u00ef\u00b8\u017d\u00e2\u2014\u00bb\u00ef\u00b8\u017d\u00e2\u2014\u00bb\u00ef\u00b8\u017d\n\u00e2\u2014\u00bb\u00ef\u00b8\u017d\u00e2\u2014\u00bc\u00e2\u2014\u00bb\u00ef\u00b8\u017d\n\u00e2\u2020\u201c"
  | "botRightSix" => some "\u00e2\u2026\u2122\n\u00e2\u2014\u00bb\u00ef\u00b8\u017d\u00e2\u2014\u00bb\u00ef\u00b8\u017d\u00e2\u2014\u00bb\u00ef\u00b8\u017d\n\u00e2\u2014\u00bb\u00ef\u00b8\u017d\u00e2\u2014\u00bb\u00ef\u00b8\u017d\u00e2\u2014\u00bc\n\u00e2\u2020\u02dc\u00ef\u00b8\u017d"
  | _ => none

/-- `Movements.get` of version A (phizeup.js:180-182):
`this[direction] || direction.toString()`.  Every stored label is a nonempty
(truthy) string, so a defined label is returned as-is and an undefined lookup
falls back to the direction name itself. -/
def movementsGet (direction : String) : String :=
  (movementsLookup direction).getD direction

/-- Result of a JavaScript call that can throw: either a value or a thrown
`TypeError`. -/
inductive JsResult (α : Type) where
  | ok (value : α)
  | typeError
deriving DecidableEq, Repr

/-- The label post-processing applied by version B's `Movements.get`
(phizeup.js:626) to a defined label:
`.split(' ').join("\n").replace(/ +/g, '')`. -/
def labelTransformB (s : String) : String :=
  (String.intercalate "\n" (s.splitOn " ")).replace " " ""

/-- `Movements.get` of version B (phizeup.js:625-627):
`this[direction].split(' ').join("\n").replace(/ +/g,'') || direction.toString()`.
When `this[direction]` is `undefined`, the `.split` call throws a `TypeError`
before the `||` fallback can apply. -/
def movementsGetB (direction : String) : JsResult String :=
  match movementsLookupB direction with
  | some label => JsResult.ok (labelTransformB label)
  | none => JsResult.typeError

/-- Concrete fixture: a 1600x1200 origin screen (identifier 1). -/
def originScreen : Screen :=
  { identifier := 1
    visibleFrame := { x := 0, y := 0, width := 1600, height := 1200 }
    flippedVisibleFrame := { x := 0, y := 0, width := 1600, height := 1200 }
    flippedFrame := { x := 0, y := 0, width := 1600, height := 1225 } }

/-- Concrete fixture: a smaller 1000x700 destination screen (identifier 2). -/
def destScreen : Screen :=
  { identifier := 2
    visibleFrame := { x := 0, y := 0, width := 1000, height := 700 }
    flippedVisibleFrame := { x := 0, y := 0, width := 1000, height := 700 }
    flippedFrame := { x := 0, y := 0, width := 1000, height := 725 } }

/-- Concrete fixture: a 1400x1000 window on `originScreen` (not maximised). -/
def migratingWindow : WindowState :=
  { frame := { x := 0, y := 0, width := 1400, height := 1000 }, screen := originScreen }

/-- Concrete fixture: a 1000x800 origin screen (identifier 3). -/
def maxOriginScreen : Screen :=
  { identifier := 3
    visibleFrame := { x := 0, y := 0, width := 1000, height := 800 }
    flippedVisibleFrame := { x := 0, y := 0, width := 1000, height := 800 }
    flippedFrame := { x := 0, y := 0, width := 1000, height := 825 } }

/-- Concrete fixture: a 1200x900 destination screen at origin (1000, -200)
(identifier 4). -/
def maxDestScreen : Screen :=
  { identifier := 4
    visibleFrame := { x := 1000, y := -200, width := 1200, height := 900 }
    flippedVisibleFrame := { x := 1000, y := -200, width := 1200, height := 900 }
    flippedFrame := { x := 1000, y := -200, width := 1200, height := 925 } }

/-- Concrete fixture: a window exactly filling `maxOriginScreen`'s visible
frame (the maximised state). -/
def maximisedWindow : WindowState :=
  { frame := { x := 0, y := 0, width := 1000, height := 800 }, screen := maxOriginScreen }

end PhizeUp

namespace PhizeUp

theorem jsRound_le (q : ℚ) : (jsRound q : ℚ) ≤ q + 1 / 2 := Int.floor_le (q + 1 / 2)

theorem lt_jsRound (q : ℚ) : q - 1 / 2 < (jsRound q : ℚ) := by
  have h := Int.lt_floor_add_one (q + 1 / 2)
  unfold jsRound
  linarith

theorem jsRound_intCast (n : ℤ) : jsRound (n : ℚ) = n := by
  unfold jsRound
  rw [add_comm, Int.floor_add_int]
  norm_num

theorem jsRound_intCast_add (n : ℤ) (q : ℚ) : jsRound ((n : ℚ) + q) = n + jsRound q := by
  unfold jsRound
  rw [add_assoc, Int.floor_int_add]

theorem jsRound_intCast_mul_two (n : ℤ) : jsRound ((n : ℚ) * 2) = n * 2 := by
  rw [show ((n : ℚ) * 2) = ((n * 2 : ℤ) : ℚ) by push_cast; ring, jsRound_intCast]

theorem jsRound_eq_of (q : ℚ) (n : ℤ) (h1 : (n : ℚ) ≤ q + 1 / 2) (h2 : q + 1 / 2 < (n : ℚ) + 1) :
    jsRound q = n := by
  unfold jsRound
  exact Int.floor_eq_iff.mpr ⟨h1, h2⟩

theorem two_jsRound_half_bounds (a : ℤ) :
    a ≤ 2 * jsRound ((a : ℚ) / 2) ∧ 2 * jsRound ((a : ℚ) / 2) ≤ a + 1 := by
  have h1 := jsRound_le ((a : ℚ) / 2)
  have h2 := lt_jsRound ((a : ℚ) / 2)
  constructor
  · have h3 : (a : ℚ) - 1 < 2 * (jsRound ((a : ℚ) / 2) : ℚ) := by linarith
    have h4 : a - 1 < 2 * jsRound ((a : ℚ) / 2) := by exact_mod_cast h3
    omega
  · have h3 : 2 * (jsRound ((a : ℚ) / 2) : ℚ) ≤ (a : ℚ) + 1 := by linarith
    exact_mod_cast h3

theorem three_jsRound_third_bounds (a : ℤ) :
    a - 1 ≤ 3 * jsRound ((a : ℚ) / 3) ∧ 3 * jsRound ((a : ℚ) / 3) ≤ a + 1 := by
  have h1 := jsRound_le ((a : ℚ) / 3)
  have h2 := lt_jsRound ((a : ℚ) / 3)
  constructor
  · have h3 : 2 * (a : ℚ) - 3 < 2 * (3 * (jsRound ((a : ℚ) / 3) : ℚ)) := by linarith
    have h4 : 2 * a - 3 < 2 * (3 * jsRound ((a : ℚ) / 3)) := by exact_mod_cast h3
    omega
  · have h3 : 2 * (3 * (jsRound ((a : ℚ) / 3) : ℚ)) ≤ 2 * (a : ℚ) + 3 := by linarith
    have h4 : 2 * (3 * jsRound ((a : ℚ) / 3)) ≤ 2 * a + 3 := by exact_mod_cast h3
    omega

theorem jsSign_of_pos (q : ℚ) (h : 0 < q) : jsSign q = 1 := by
  unfold jsSign
  rw [if_neg (by linarith), if_pos h]

theorem jsSign_of_neg (q : ℚ) (h : q < 0) : jsSign q = -1 := by
  unfold jsSign
  rw [if_pos h]

theorem jsSign_of_zero (q : ℚ) (h : q = 0) : jsSign q = 0 := by
  unfold jsSign
  rw [if_neg (by simp [h]), if_neg (by simp [h])]

theorem jsSign_cases (q : ℚ) : jsSign q = -1 ∨ jsSign q = 0 ∨ jsSign q = 1 := by
  unfold jsSign
  split
  · exact Or.inl rfl
  split
  · exact Or.inr (Or.inr rfl)
  · exact Or.inr (Or.inl rfl)

theorem openRect_inter_empty_of_sep (f g : Frame)
    (hsep : f.x + f.width ≤ g.x ∨ g.x + g.width ≤ f.x ∨
      f.y + f.height ≤ g.y ∨ g.y + g.height ≤ f.y) :
    openRect f ∩ openRect g = ∅ := by
  ext ⟨a, b⟩
  simp only [openRect, Set.mem_inter_iff, Set.mem_setOf_eq, Set.mem_empty_iff_false, iff_false]
  rintro ⟨⟨f1, f2, f3, f4⟩, g1, g2, g3, g4⟩
  rcases hsep with hs | hs | hs | hs <;> linarith

theorem quarters_union (X Y NW NH : ℚ) (hNW : 0 ≤ NW) (hNH : 0 ≤ NH) :
    closedRect { x := X, y := Y, width := NW, height := NH } ∪
        closedRect { x := X + NW, y := Y, width := NW, height := NH } ∪
        closedRect { x := X, y := Y + NH, width := NW, height := NH } ∪
        closedRect { x := X + NW, y := Y + NH, width := NW, height := NH } =
      closedRect { x := X, y := Y, width := NW + NW, height := NH + NH } := by
  ext ⟨a, b⟩
  simp only [closedRect, Set.mem_union, Set.mem_setOf_eq]
  constructor
  · rintro (((⟨h1, h2, h3, h4⟩ | ⟨h1, h2, h3, h4⟩) | ⟨h1, h2, h3, h4⟩) | ⟨h1, h2, h3, h4⟩) <;>
      exact ⟨by linarith, by linarith, by linarith, by linarith⟩
  · rintro ⟨h1, h2, h3, h4⟩
    rcases le_or_lt a (X + NW) with ha | ha <;> rcases le_or_lt b (Y + NH) with hb | hb
    · exact Or.inl (Or.inl (Or.inl ⟨h1, ha, h3, hb⟩))
    · exact Or.inl (Or.inr ⟨h1, ha, by linarith, by linarith⟩)
    · exact Or.inl (Or.inl (Or.inr ⟨by linarith, by linarith, h3, hb⟩))
    · exact Or.inr ⟨by linarith, by linarith, by linarith, by linarith⟩

end PhizeUp

namespace PhizeUp

set_option maxHeartbeats 1600000 in
/-- C1 (amended): for every parent frame whose `x`, `y`, `width`, `height` are
integers with nonnegative width and height, and every direction for which
`getSubFrame` resolves a frame (exactly the 20 defined partition names), the
resolved frame is contained in the parent up to a 1-unit rounding tolerance
per axis: `f.x ≥ P.x - 1`, `f.y ≥ P.y - 1`, `f.x + f.width ≤ P.x + P.width + 1`
and `f.y + f.height ≤ P.y + P.height + 1`.  (As stated over arbitrary real
parent frames the claim is false, see the counterexample.) -/
theorem getSubFrame_containment_int (px py w h : ℤ) (hw : 0 ≤ w) (hh : 0 ≤ h)
    (direction : String) (f : Frame)
    (hf : getSubFrame { x := (px : ℚ), y := (py : ℚ), width := (w : ℚ), height := (h : ℚ) } direction = some f) :
    (px : ℚ) - 1 ≤ f.x ∧ (py : ℚ) - 1 ≤ f.y ∧
      f.x + f.width ≤ (px : ℚ) + (w : ℚ) + 1 ∧ f.y + f.height ≤ (py : ℚ) + (h : ℚ) + 1 := by
  have hbw := two_jsRound_half_bounds w
  have hbh := two_jsRound_half_bounds h
  have hbt := three_jsRound_third_bounds w
  have hcw := two_jsRound_half_bounds (jsRound ((w : ℚ) / 2))
  have hch := two_jsRound_half_bounds (jsRound ((h : ℚ) / 2))
  have hcenw : jsRound ((jsRound ((w : ℚ) / 2) : ℚ) / 2) + jsRound ((w : ℚ) / 2) ≤ w + 1 := by
    omega
  have hcenh : jsRound ((jsRound ((h : ℚ) / 2) : ℚ) / 2) + jsRound ((h : ℚ) / 2) ≤ h + 1 := by
    omega
  have qbw1 : (w : ℚ) ≤ 2 * (jsRound ((w : ℚ) / 2) : ℚ) := by exact_mod_cast hbw.1
  have qbw2 : 2 * (jsRound ((w : ℚ) / 2) : ℚ) ≤ (w : ℚ) + 1 := by exact_mod_cast hbw.2
  have qbh1 : (h : ℚ) ≤ 2 * (jsRound ((h : ℚ) / 2) : ℚ) := by exact_mod_cast hbh.1
  have qbh2 : 2 * (jsRound ((h : ℚ) / 2) : ℚ) ≤ (h : ℚ) + 1 := by exact_mod_cast hbh.2
  have qbt1 : (w : ℚ) - 1 ≤ 3 * (jsRound ((w : ℚ) / 3) : ℚ) := by exact_mod_cast hbt.1
  have qbt2 : 3 * (jsRound ((w : ℚ) / 3) : ℚ) ≤ (w : ℚ) + 1 := by exact_mod_cast hbt.2
  have qcw1 : (jsRound ((w : ℚ) / 2) : ℚ) ≤ 2 * (jsRound ((jsRound ((w : ℚ) / 2) : ℚ) / 2) : ℚ) := by
    exact_mod_cast hcw.1
  have qch1 : (jsRound ((h : ℚ) / 2) : ℚ) ≤ 2 * (jsRound ((jsRound ((h : ℚ) / 2) : ℚ) / 2) : ℚ) := by
    exact_mod_cast hch.1
  have qcenw : (jsRound ((jsRound ((w : ℚ) / 2) : ℚ) / 2) : ℚ) + (jsRound ((w : ℚ) / 2) : ℚ) ≤ (w : ℚ) + 1 := by
    exact_mod_cast hcenw
  have qcenh : (jsRound ((jsRound ((h : ℚ) / 2) : ℚ) / 2) : ℚ) + (jsRound ((h : ℚ) / 2) : ℚ) ≤ (h : ℚ) + 1 := by
    exact_mod_cast hcenh
  have qw : (0 : ℚ) ≤ (w : ℚ) := by exact_mod_cast hw
  have qh : (0 : ℚ) ≤ (h : ℚ) := by exact_mod_cast hh
  simp only [getSubFrame] at hf
  split at hf <;>
    first
      | exact Option.noConfusion hf
      | (injection hf with hf
         subst hf
         refine ⟨?_, ?_, ?_, ?_⟩ <;>
           · simp only [change, narrow, halfHight, oneThird, twoThirds, add_zero,
               jsRound_intCast, jsRound_intCast_add, jsRound_intCast_mul_two]
             push_cast
             linarith)

/-- C1 witness: concrete instance of the containment theorem at the parent
frame `{0, 0, 1000, 800}` and partition `topLeft`, which resolves to
`{0, 0, 500, 400}`. -/
theorem getSubFrame_containment_int_witness :
    (0 : ℤ) ≤ (1000 : ℤ) ∧ (0 : ℤ) ≤ (800 : ℤ) ∧
    getSubFrame { x := ((0 : ℤ) : ℚ), y := ((0 : ℤ) : ℚ), width := ((1000 : ℤ) : ℚ), height := ((800 : ℤ) : ℚ) } "topLeft" = some { x := 0, y := 0, width := 500, height := 400 } ∧
    (((0 : ℤ) : ℚ) - 1 ≤ (0 : ℚ) ∧ ((0 : ℤ) : ℚ) - 1 ≤ (0 : ℚ) ∧
      (0 : ℚ) + 500 ≤ ((0 : ℤ) : ℚ) + ((1000 : ℤ) : ℚ) + 1 ∧
      (0 : ℚ) + 400 ≤ ((0 : ℤ) : ℚ) + ((800 : ℤ) : ℚ) + 1) := by
  have h0 : jsRound (0 : ℚ) = 0 := jsRound_eq_of _ 0 (by norm_num) (by norm_num)
  have h500 : jsRound (500 : ℚ) = 500 := jsRound_eq_of _ 500 (by norm_num) (by norm_num)
  have h400 : jsRound (400 : ℚ) = 400 := jsRound_eq_of _ 400 (by norm_num) (by norm_num)
  have heval : getSubFrame { x := ((0 : ℤ) : ℚ), y := ((0 : ℤ) : ℚ), width := ((1000 : ℤ) : ℚ), height := ((800 : ℤ) : ℚ) } "topLeft" = some { x := 0, y := 0, width := 500, height := 400 } := by
    norm_num [getSubFrame, change, narrow, halfHight, h0, h500, h400]
  exact ⟨by norm_num, by norm_num, heval,
    getSubFrame_containment_int 0 0 1000 800 (by norm_num) (by norm_num) "topLeft"
      { x := 0, y := 0, width := 500, height := 400 } heval⟩

/-- C1 counterexample: the claim as stated quantifies over every parent frame
with nonnegative width and height, including non-integer ones; for the parent
`{x: 0, y: 0, width: 3/2, height: 2}` and partition `rightThird` the code
resolves `{x: 2, y: 0, width: 1, height: 2}`, whose right edge `2 + 1 = 3`
overshoots `P.x + P.width + 1 = 5/2`, violating the claimed 1-unit bound. -/
theorem getSubFrame_containment_counterexample :
    getSubFrame { x := 0, y := 0, width := 3 / 2, height := 2 } "rightThird" = some { x := 2, y := 0, width := 1, height := 2 } ∧
    ¬((2 : ℚ) + 1 ≤ 0 + 3 / 2 + 1) := by
  constructor
  · have h0 : jsRound (0 : ℚ) = 0 := jsRound_eq_of _ 0 (by norm_num) (by norm_num)
    have hhalf : jsRound (1 / 2 : ℚ) = 1 := jsRound_eq_of _ 1 (by norm_num) (by norm_num)
    have h2 : jsRound (2 : ℚ) = 2 := jsRound_eq_of _ 2 (by norm_num) (by norm_num)
    norm_num [getSubFrame, change, oneThird, twoThirds, h0, hhalf, h2]
  · norm_num

/-- C3: for a partition name outside the 20-key catalog, `getSubFrame` indeed
fails to resolve (`undefined`/`none`), but `setInSubFrame` does NOT treat this
as a no-op: it still invokes `window.setFrame` with the undefined result,
because phizeup.js:224-229 has no guard.  This evaluates the code on a
concrete unknown name, exhibiting the divergence from the claim. -/
theorem setInSubFrame_unknown_partition_calls_setFrame :
    getSubFrame { x := 0, y := 0, width := 1280, height := 800 } "fullScreen" = none ∧
    setInSubFrame { x := 0, y := 0, width := 1280, height := 800 } "fullScreen" = SetFrameCall.called none :=
  ⟨rfl, rfl⟩

set_option maxHeartbeats 800000 in
/-- C4 (amended, restricted to the phizeup.js frame calculator): for every
parent frame whose width and height are integers (the origin may be any
rational), every frame resolved by the phizeup.js `getSubFrame` has
integer-valued `x`, `y`, `width` and `height`.  (As stated the claim is
false on both of its cited sources: in phizeup.js full-dimension sizes are
passed through unrounded and the two-thirds width is `2*round(w/3)`, not
`round(2w/3)`; and the legacy `src/unnamed/part_000` calculator
(`getSubFrameLegacy`) performs no rounding at all, producing fractional
components even for all-integer parents — see the counterexample.) -/
theorem getSubFrame_components_integral (pxq pyq : ℚ) (w h : ℤ) (direction : String) (f : Frame)
    (hf : getSubFrame { x := pxq, y := pyq, width := (w : ℚ), height := (h : ℚ) } direction = some f) :
    isIntegerValued f.x ∧ isIntegerValued f.y ∧
      isIntegerValued f.width ∧ isIntegerValued f.height := by
  simp only [getSubFrame] at hf
  split at hf <;>
    first
      | exact Option.noConfusion hf
      | (injection hf with hf
         subst hf
         exact ⟨⟨_, rfl⟩, ⟨_, rfl⟩, ⟨_, rfl⟩, ⟨_, rfl⟩⟩)

/-- C4 witness: the rounding theorem applied at the parent
`{x: 7/2, y: 0, width: 3, height: 3}` (non-integer origin) and `topLeft`,
which resolves to the all-integer frame `{4, 0, 2, 2}`. -/
theorem getSubFrame_components_integral_witness :
    getSubFrame { x := 7 / 2, y := 0, width := ((3 : ℤ) : ℚ), height := ((3 : ℤ) : ℚ) } "topLeft" = some { x := 4, y := 0, width := 2, height := 2 } ∧
    (isIntegerValued (4 : ℚ) ∧ isIntegerValued (0 : ℚ) ∧
      isIntegerValued (2 : ℚ) ∧ isIntegerValued (2 : ℚ)) := by
  have h0 : jsRound (0 : ℚ) = 0 := jsRound_eq_of _ 0 (by norm_num) (by norm_num)
  have h72 : jsRound (7 / 2 : ℚ) = 4 := jsRound_eq_of _ 4 (by norm_num) (by norm_num)
  have h32 : jsRound (3 / 2 : ℚ) = 2 := jsRound_eq_of _ 2 (by norm_num) (by norm_num)
  have heval : getSubFrame { x := 7 / 2, y := 0, width := ((3 : ℤ) : ℚ), height := ((3 : ℤ) : ℚ) } "topLeft" = some { x := 4, y := 0, width := 2, height := 2 } := by
    norm_num [getSubFrame, change, narrow, halfHight, h0, h72, h32]
  exact ⟨heval, getSubFrame_components_integral (7 / 2) 0 3 3 "topLeft"
    { x := 4, y := 0, width := 2, height := 2 } heval⟩

/-- C4 counterexample: the claim as stated fails on both of its cited
sources.  In phizeup.js: for the fractional parent `{0, 0, 5/2, 2}`,
partition `up` returns width `5/2`, which is not an integer (the parent's
width is passed through unrounded); and even for the all-integer parent
`{0, 0, 4, 3}`, partition `left2Thirds` returns width `2 = 2*round(4/3)`,
while the nearest integer of the exact fractional value `2*4/3 = 8/3` is
`3`.  In the legacy `src/unnamed/part_000` calculator, which performs no
rounding at all: even the all-integer parent `{0, 0, 3, 3}` yields the
non-integer width `3/2` for partition `left`, and a fractional origin
`7/2` is passed through unrounded as the `x` of `left`. -/
theorem getSubFrame_rounding_counterexample :
    getSubFrame { x := 0, y := 0, width := 5 / 2, height := 2 } "up" = some { x := 0, y := 0, width := 5 / 2, height := 1 } ∧
    ¬ isIntegerValued (5 / 2 : ℚ) ∧
    getSubFrame { x := 0, y := 0, width := 4, height := 3 } "left2Thirds" = some { x := 0, y := 0, width := 2, height := 3 } ∧
    jsRound (2 * 4 / 3 : ℚ) = 3 ∧ (2 : ℚ) ≠ ((3 : ℤ) : ℚ) ∧
    getSubFrameLegacy { x := 0, y := 0, width := 3, height := 3 } "left" = some { x := 0, y := 0, width := 3 / 2, height := 3 } ∧
    ¬ isIntegerValued (3 / 2 : ℚ) ∧
    getSubFrameLegacy { x := 7 / 2, y := 0, width := 3, height := 3 } "left" = some { x := 7 / 2, y := 0, width := 3 / 2, height := 3 } ∧
    ¬ isIntegerValued (7 / 2 : ℚ) := by
  have h0 : jsRound (0 : ℚ) = 0 := jsRound_eq_of _ 0 (by norm_num) (by norm_num)
  have hone : jsRound (1 : ℚ) = 1 := jsRound_eq_of _ 1 (by norm_num) (by norm_num)
  have h43 : jsRound (4 / 3 : ℚ) = 1 := jsRound_eq_of _ 1 (by norm_num) (by norm_num)
  have h2 : jsRound (2 : ℚ) = 2 := jsRound_eq_of _ 2 (by norm_num) (by norm_num)
  have h83 : jsRound (8 / 3 : ℚ) = 3 := jsRound_eq_of _ 3 (by norm_num) (by norm_num)
  refine ⟨?_, ?_, ?_, ?_, by norm_num, ?_, ?_, ?_, ?_⟩
  · norm_num [getSubFrame, change, halfHight, h0, hone]
  · rintro ⟨n, hn⟩
    have h5 : (5 : ℚ) = 2 * (n : ℚ) := by linarith
    have h5z : (5 : ℤ) = 2 * n := by exact_mod_cast h5
    omega
  · norm_num [getSubFrame, change, oneThird, twoThirds, h0, h43, h2]
  · norm_num [h83]
  · norm_num [getSubFrameLegacy, changeLegacy, parentHalfWide]
  · rintro ⟨n, hn⟩
    have h3 : (3 : ℚ) = 2 * (n : ℚ) := by linarith
    have h3z : (3 : ℤ) = 2 * n := by exact_mod_cast h3
    omega
  · norm_num [getSubFrameLegacy, changeLegacy, parentHalfWide]
  · rintro ⟨n, hn⟩
    have h7 : (7 : ℚ) = 2 * (n : ℚ) := by linarith
    have h7z : (7 : ℤ) = 2 * n := by exact_mod_cast h7
    omega

end PhizeUp

namespace PhizeUp

set_option maxHeartbeats 1600000 in
/-- C5 (amended): for every parent frame with integer components and
nonnegative width and height, the four quarter frames tile: their union is
exactly one rectangle anchored at the parent's origin whose width is the sum
of the two column widths and whose height is the sum of the two row heights,
those sums are within 1 unit of the parent's width and height respectively
(so any gap, overlap or overhang is bounded by the rounding tolerance), the
interior seams are exact, and the four interiors are pairwise disjoint.
(As stated over arbitrary real parent frames the 1-unit bound is false, see
the counterexample.) -/
theorem quarters_tile_int (px py w h : ℤ) (hw : 0 ≤ w) (hh : 0 ≤ h)
    (tl tr bl br : Frame)
    (htl : getSubFrame { x := (px : ℚ), y := (py : ℚ), width := (w : ℚ), height := (h : ℚ) } "topLeft" = some tl)
    (htr : getSubFrame { x := (px : ℚ), y := (py : ℚ), width := (w : ℚ), height := (h : ℚ) } "topRight" = some tr)
    (hbl : getSubFrame { x := (px : ℚ), y := (py : ℚ), width := (w : ℚ), height := (h : ℚ) } "bottomLeft" = some bl)
    (hbr : getSubFrame { x := (px : ℚ), y := (py : ℚ), width := (w : ℚ), height := (h : ℚ) } "bottomRight" = some br) :
    (closedRect tl ∪ closedRect tr ∪ closedRect bl ∪ closedRect br =
      closedRect { x := (px : ℚ), y := (py : ℚ), width := tl.width + tr.width, height := tl.height + bl.height }) ∧
    tl.x = (px : ℚ) ∧ tl.y = (py : ℚ) ∧
    tr.x = tl.x + tl.width ∧ bl.y = tl.y + tl.height ∧
    |tl.width + tr.width - (w : ℚ)| ≤ 1 ∧ |tl.height + bl.height - (h : ℚ)| ≤ 1 ∧
    openRect tl ∩ openRect tr = ∅ ∧ openRect tl ∩ openRect bl = ∅ ∧
    openRect tl ∩ openRect br = ∅ ∧ openRect tr ∩ openRect bl = ∅ ∧
    openRect tr ∩ openRect br = ∅ ∧ openRect bl ∩ openRect br = ∅ := by
  have hbw := two_jsRound_half_bounds w
  have hbh := two_jsRound_half_bounds h
  have qbw1 : (w : ℚ) ≤ 2 * (jsRound ((w : ℚ) / 2) : ℚ) := by exact_mod_cast hbw.1
  have qbw2 : 2 * (jsRound ((w : ℚ) / 2) : ℚ) ≤ (w : ℚ) + 1 := by exact_mod_cast hbw.2
  have qbh1 : (h : ℚ) ≤ 2 * (jsRound ((h : ℚ) / 2) : ℚ) := by exact_mod_cast hbh.1
  have qbh2 : 2 * (jsRound ((h : ℚ) / 2) : ℚ) ≤ (h : ℚ) + 1 := by exact_mod_cast hbh.2
  have qw : (0 : ℚ) ≤ (w : ℚ) := by exact_mod_cast hw
  have qh : (0 : ℚ) ≤ (h : ℚ) := by exact_mod_cast hh
  have hN : (0 : ℚ) ≤ (jsRound ((w : ℚ) / 2) : ℚ) := by linarith
  have hH : (0 : ℚ) ≤ (jsRound ((h : ℚ) / 2) : ℚ) := by linarith
  have etl : getSubFrame { x := (px : ℚ), y := (py : ℚ), width := (w : ℚ), height := (h : ℚ) } "topLeft" =
      some { x := change (px : ℚ) 0, y := change (py : ℚ) 0,
             width := narrow { x := (px : ℚ), y := (py : ℚ), width := (w : ℚ), height := (h : ℚ) },
             height := halfHight { x := (px : ℚ), y := (py : ℚ), width := (w : ℚ), height := (h : ℚ) } } := rfl
  have etr : getSubFrame { x := (px : ℚ), y := (py : ℚ), width := (w : ℚ), height := (h : ℚ) } "topRight" =
      some { x := change (px : ℚ) (narrow { x := (px : ℚ), y := (py : ℚ), width := (w : ℚ), height := (h : ℚ) }),
             y := change (py : ℚ) 0,
             width := narrow { x := (px : ℚ), y := (py : ℚ), width := (w : ℚ), height := (h : ℚ) },
             height := halfHight { x := (px : ℚ), y := (py : ℚ), width := (w : ℚ), height := (h : ℚ) } } := rfl
  have ebl : getSubFrame { x := (px : ℚ), y := (py : ℚ), width := (w : ℚ), height := (h : ℚ) } "bottomLeft" =
      some { x := change (px : ℚ) 0,
             y := change (py : ℚ) (halfHight { x := (px : ℚ), y := (py : ℚ), width := (w : ℚ), height := (h : ℚ) }),
             width := narrow { x := (px : ℚ), y := (py : ℚ), width := (w : ℚ), height := (h : ℚ) },
             height := halfHight { x := (px : ℚ), y := (py : ℚ), width := (w : ℚ), height := (h : ℚ) } } := rfl
  have ebr : getSubFrame { x := (px : ℚ), y := (py : ℚ), width := (w : ℚ), height := (h : ℚ) } "bottomRight" =
      some { x := change (px : ℚ) (narrow { x := (px : ℚ), y := (py : ℚ), width := (w : ℚ), height := (h : ℚ) }),
             y := change (py : ℚ) (halfHight { x := (px : ℚ), y := (py : ℚ), width := (w : ℚ), height := (h : ℚ) }),
             width := narrow { x := (px : ℚ), y := (py : ℚ), width := (w : ℚ), height := (h : ℚ) },
             height := halfHight { x := (px : ℚ), y := (py : ℚ), width := (w : ℚ), height := (h : ℚ) } } := rfl
  rw [etl] at htl; injection htl with htl; subst htl
  rw [etr] at htr; injection htr with htr; subst htr
  rw [ebl] at hbl; injection hbl with hbl; subst hbl
  rw [ebr] at hbr; injection hbr with hbr; subst hbr
  simp only [change, narrow, halfHight, add_zero, jsRound_intCast, jsRound_intCast_add]
  push_cast
  refine ⟨?_, trivial, trivial, rfl, rfl, ?_, ?_, ?_, ?_, ?_, ?_, ?_, ?_⟩
  · exact quarters_union (px : ℚ) (py : ℚ) _ _ hN hH
  · exact abs_le.mpr ⟨by linarith, by linarith⟩
  · exact abs_le.mpr ⟨by linarith, by linarith⟩
  · exact openRect_inter_empty_of_sep _ _ (Or.inl (by linarith))
  · exact openRect_inter_empty_of_sep _ _ (Or.inr (Or.inr (Or.inl (by linarith))))
  · exact openRect_inter_empty_of_sep _ _ (Or.inl (by linarith))
  · exact openRect_inter_empty_of_sep _ _ (Or.inr (Or.inl (by linarith)))
  · exact openRect_inter_empty_of_sep _ _ (Or.inr (Or.inr (Or.inl (by linarith))))
  · exact openRect_inter_empty_of_sep _ _ (Or.inl (by linarith))

end PhizeUp

namespace PhizeUp

/-- C5 witness: the tiling theorem applied at the parent `{0, 0, 1000, 800}`,
whose quarters are `{0,0,500,400}`, `{500,0,500,400}`, `{0,400,500,400}` and
`{500,400,500,400}`; shown here: their union is the exact rectangle
`{0, 0, 1000, 800}` (sums of halves) and the first two interiors are
disjoint. -/
theorem quarters_tile_int_witness :
    getSubFrame { x := ((0 : ℤ) : ℚ), y := ((0 : ℤ) : ℚ), width := ((1000 : ℤ) : ℚ), height := ((800 : ℤ) : ℚ) } "topLeft" = some { x := 0, y := 0, width := 500, height := 400 } ∧
    getSubFrame { x := ((0 : ℤ) : ℚ), y := ((0 : ℤ) : ℚ), width := ((1000 : ℤ) : ℚ), height := ((800 : ℤ) : ℚ) } "topRight" = some { x := 500, y := 0, width := 500, height := 400 } ∧
    getSubFrame { x := ((0 : ℤ) : ℚ), y := ((0 : ℤ) : ℚ), width := ((1000 : ℤ) : ℚ), height := ((800 : ℤ) : ℚ) } "bottomLeft" = some { x := 0, y := 400, width := 500, height := 400 } ∧
    getSubFrame { x := ((0 : ℤ) : ℚ), y := ((0 : ℤ) : ℚ), width := ((1000 : ℤ) : ℚ), height := ((800 : ℤ) : ℚ) } "bottomRight" = some { x := 500, y := 400, width := 500, height := 400 } ∧
    (closedRect { x := 0, y := 0, width := 500, height := 400 } ∪
        closedRect { x := 500, y := 0, width := 500, height := 400 } ∪
        closedRect { x := 0, y := 400, width := 500, height := 400 } ∪
        closedRect { x := 500, y := 400, width := 500, height := 400 } =
      closedRect { x := ((0 : ℤ) : ℚ), y := ((0 : ℤ) : ℚ), width := (500 : ℚ) + 500, height := (400 : ℚ) + 400 }) ∧
    openRect { x := 0, y := 0, width := 500, height := 400 } ∩
        openRect { x := 500, y := 0, width := 500, height := 400 } = ∅ := by
  have h0 : jsRound (0 : ℚ) = 0 := jsRound_eq_of _ 0 (by norm_num) (by norm_num)
  have h500 : jsRound (500 : ℚ) = 500 := jsRound_eq_of _ 500 (by norm_num) (by norm_num)
  have h400 : jsRound (400 : ℚ) = 400 := jsRound_eq_of _ 400 (by norm_num) (by norm_num)
  have e1 : getSubFrame { x := ((0 : ℤ) : ℚ), y := ((0 : ℤ) : ℚ), width := ((1000 : ℤ) : ℚ), height := ((800 : ℤ) : ℚ) } "topLeft" = some { x := 0, y := 0, width := 500, height := 400 } := by
    norm_num [getSubFrame, change, narrow, halfHight, h0, h500, h400]
  have e2 : getSubFrame { x := ((0 : ℤ) : ℚ), y := ((0 : ℤ) : ℚ), width := ((1000 : ℤ) : ℚ), height := ((800 : ℤ) : ℚ) } "topRight" = some { x := 500, y := 0, width := 500, height := 400 } := by
    norm_num [getSubFrame, change, narrow, halfHight, h0, h500, h400]
  have e3 : getSubFrame { x := ((0 : ℤ) : ℚ), y := ((0 : ℤ) : ℚ), width := ((1000 : ℤ) : ℚ), height := ((800 : ℤ) : ℚ) } "bottomLeft" = some { x := 0, y := 400, width := 500, height := 400 } := by
    norm_num [getSubFrame, change, narrow, halfHight, h0, h500, h400]
  have e4 : getSubFrame { x := ((0 : ℤ) : ℚ), y := ((0 : ℤ) : ℚ), width := ((1000 : ℤ) : ℚ), height := ((800 : ℤ) : ℚ) } "bottomRight" = some { x := 500, y := 400, width := 500, height := 400 } := by
    norm_num [getSubFrame, change, narrow, halfHight, h0, h500, h400]
  have H := quarters_tile_int 0 0 1000 800 (by norm_num) (by norm_num) _ _ _ _ e1 e2 e3 e4
  exact ⟨e1, e2, e3, e4, H.1, H.2.2.2.2.2.2.2.1⟩

/-- C5 counterexample: the claim as stated quantifies over every parent
frame; for the fractional parent `{x: 1/2, y: 0, width: 1, height: 2}` the
`topRight` quarter is `{x: 2, y: 0, width: 1, height: 1}`, so the union of
the quarters contains the point `(3, 1/2)` whose abscissa overhangs the
parent's right edge `P.x + P.width = 3/2` by `3/2`, beyond the claimed
1-unit tolerance. -/
theorem quarters_tile_counterexample :
    getSubFrame { x := 1 / 2, y := 0, width := 1, height := 2 } "topRight" = some { x := 2, y := 0, width := 1, height := 1 } ∧
    ((3 : ℚ), (1 / 2 : ℚ)) ∈ closedRect { x := 2, y := 0, width := 1, height := 1 } ∧
    ¬((3 : ℚ) ≤ 1 / 2 + 1 + 1) := by
  refine ⟨?_, ?_, by norm_num⟩
  · have h0 : jsRound (0 : ℚ) = 0 := jsRound_eq_of _ 0 (by norm_num) (by norm_num)
    have hone : jsRound (1 : ℚ) = 1 := jsRound_eq_of _ 1 (by norm_num) (by norm_num)
    have hhalf : jsRound (1 / 2 : ℚ) = 1 := jsRound_eq_of _ 1 (by norm_num) (by norm_num)
    have h32 : jsRound (3 / 2 : ℚ) = 2 := jsRound_eq_of _ 2 (by norm_num) (by norm_num)
    norm_num [getSubFrame, change, narrow, halfHight, h0, hone, hhalf, h32]
  · simp only [closedRect, Set.mem_setOf_eq]
    norm_num

/-- C2 (amended, restricted to the phizeup.js planner): whenever
`putWindowScreen` runs with a focused window, at least two screens, a first
candidate destination screen, and does not take the keep-maximised branch
(`keepMaximised` false, or the old frame's size differs from the current
screen's visible-frame size), the planned frame's origin is exactly the
destination's visible-frame origin (flipped space) and its sizes are
`min(old, destination)` — hence never exceed the destination's visible
bounds.  (The legacy `part_000` planner violates this, see the
counterexample.) -/
theorem putWindowScreen_shrink_to_fit (toScreen : String) (keepMaximised : Bool)
    (win : WindowState) (screens : List Screen) (ns : Screen) (rest : List Screen)
    (hscreens : 2 ≤ screens.length)
    (hsel : screens.filter (fun s => s.identifier != win.screen.identifier) = ns :: rest)
    (hnotmax : ¬(keepMaximised = true ∧ win.screen.visibleFrame.width = win.frame.width ∧ win.screen.visibleFrame.height = win.frame.height)) :
    putWindowScreenRun toScreen keepMaximised (some win) screens =
      Outcome.apply { x := ns.flippedVisibleFrame.x, y := ns.flippedVisibleFrame.y, width := min win.frame.width ns.flippedVisibleFrame.width, height := min win.frame.height ns.flippedVisibleFrame.height } ∧
    min win.frame.width ns.flippedVisibleFrame.width ≤ ns.flippedVisibleFrame.width ∧
    min win.frame.height ns.flippedVisibleFrame.height ≤ ns.flippedVisibleFrame.height := by
  refine ⟨?_, min_le_right _ _, min_le_right _ _⟩
  simp only [putWindowScreenRun, hsel, List.head?_cons]
  rw [if_neg (by omega)]
  simp only [planFrame, if_neg hnotmax]

/-- C2 witness: the shrink-to-fit theorem applied to the concrete fixtures —
a 1400x1000 window on a 1600x1200 screen migrating to a 1000x700 screen gets
the planned frame `{0, 0, 1000, 700}` (spec scenario 5). -/
theorem putWindowScreen_shrink_to_fit_witness :
    (2 : ℕ) ≤ ([originScreen, destScreen] : List Screen).length ∧
    ([originScreen, destScreen].filter (fun s => s.identifier != migratingWindow.screen.identifier) = destScreen :: []) ∧
    putWindowScreenRun "next" false (some migratingWindow) [originScreen, destScreen] =
      Outcome.apply { x := destScreen.flippedVisibleFrame.x, y := destScreen.flippedVisibleFrame.y, width := min migratingWindow.frame.width destScreen.flippedVisibleFrame.width, height := min migratingWindow.frame.height destScreen.flippedVisibleFrame.height } ∧
    min migratingWindow.frame.width destScreen.flippedVisibleFrame.width ≤ destScreen.flippedVisibleFrame.width ∧
    min migratingWindow.frame.height destScreen.flippedVisibleFrame.height ≤ destScreen.flippedVisibleFrame.height := by
  have hsel : [originScreen, destScreen].filter (fun s => s.identifier != migratingWindow.screen.identifier) = destScreen :: [] := by decide
  have H := putWindowScreen_shrink_to_fit "next" false migratingWindow [originScreen, destScreen]
    destScreen [] (by decide) hsel (by simp)
  exact ⟨by decide, hsel, H⟩

/-- C2 counterexample: the claim quantifies over "the screen-migration
planner", and the repository's legacy planner (`src/unnamed/part_000`,
`putWindowScreen`) keeps the old frame's width and height unchanged — with a
1400x1000 window and a 1000-wide destination it plans width 1400, which
exceeds the destination's visible width 1000 and differs from
`min(1400, 1000)`. -/
theorem putWindowScreenLegacy_exceeds_destination :
    putWindowScreenRunLegacy "next" (some migratingWindow) [originScreen, destScreen] =
      Outcome.apply { x := 0, y := 0, width := 1400, height := 1000 } ∧
    destScreen.flippedVisibleFrame.width < 1400 ∧
    (1400 : ℚ) ≠ min migratingWindow.frame.width destScreen.flippedVisibleFrame.width := by
  refine ⟨by decide, by decide, by decide⟩

/-- C6: with at least two screens, `keepMaximised = true`, and the focused
window's frame width and height exactly equal to the current screen's
visible-frame width and height, the planned migration frame is exactly the
destination screen's visible frame (flipped space, as passed to `setFrame`):
origin and size both taken from the destination. -/
theorem putWindowScreen_keep_maximised (toScreen : String)
    (win : WindowState) (screens : List Screen) (ns : Screen) (rest : List Screen)
    (hscreens : 2 ≤ screens.length)
    (hsel : screens.filter (fun s => s.identifier != win.screen.identifier) = ns :: rest)
    (hmaxw : win.screen.visibleFrame.width = win.frame.width)
    (hmaxh : win.screen.visibleFrame.height = win.frame.height) :
    putWindowScreenRun toScreen true (some win) screens = Outcome.apply ns.flippedVisibleFrame := by
  have hplan : planFrame true win.frame win.screen.visibleFrame ns.flippedVisibleFrame =
      ns.flippedVisibleFrame := by
    unfold planFrame
    rw [if_pos ⟨rfl, hmaxw, hmaxh⟩]
  simp only [putWindowScreenRun, hsel, List.head?_cons]
  rw [if_neg (by omega), hplan]

/-- C6 witness: the keep-maximised theorem applied to the concrete fixtures —
a window filling its 1000x800 screen migrates to the 1200x900 screen at
`(1000, -200)` and the planned frame is exactly that screen's visible frame
(spec scenario 4). -/
theorem putWindowScreen_keep_maximised_witness :
    (2 : ℕ) ≤ ([maxOriginScreen, maxDestScreen] : List Screen).length ∧
    ([maxOriginScreen, maxDestScreen].filter (fun s => s.identifier != maximisedWindow.screen.identifier) = maxDestScreen :: []) ∧
    maximisedWindow.screen.visibleFrame.width = maximisedWindow.frame.width ∧
    maximisedWindow.screen.visibleFrame.height = maximisedWindow.frame.height ∧
    putWindowScreenRun "anything" true (some maximisedWindow) [maxOriginScreen, maxDestScreen] =
      Outcome.apply maxDestScreen.flippedVisibleFrame := by
  have hsel : [maxOriginScreen, maxDestScreen].filter (fun s => s.identifier != maximisedWindow.screen.identifier) = maxDestScreen :: [] := by decide
  exact ⟨by decide, hsel, by decide, by decide,
    putWindowScreen_keep_maximised "anything" maximisedWindow [maxOriginScreen, maxDestScreen]
      maxDestScreen [] (by decide) hsel (by decide) (by decide)⟩

/-- C8: if fewer than two screens are connected when a screen-migration
action fires with a focused window, the run aborts with the visible
"NO SCREENS" alert, `setFrame` is never called (the outcome is not an
`apply`), and the window's frame is unchanged. -/
theorem putWindowScreen_no_other_screens (toScreen : String) (keepMaximised : Bool)
    (win : WindowState) (screens : List Screen) (hscreens : screens.length < 2) :
    putWindowScreenRun toScreen keepMaximised (some win) screens = Outcome.abort "NO SCREENS" ∧
    (∀ f : Frame, putWindowScreenRun toScreen keepMaximised (some win) screens ≠ Outcome.apply f) ∧
    finalWindowFrame (putWindowScreenRun toScreen keepMaximised (some win) screens) win.frame = win.frame := by
  have habort : putWindowScreenRun toScreen keepMaximised (some win) screens = Outcome.abort "NO SCREENS" := by
    simp only [putWindowScreenRun]
    rw [if_pos hscreens]
  refine ⟨habort, ?_, ?_⟩
  · intro f h
    rw [habort] at h
    exact Outcome.noConfusion h
  · rw [habort]
    rfl

/-- C8 witness: the no-other-screens theorem applied to the concrete
one-screen fixture: the run aborts with "NO SCREENS" and the window's frame
is unchanged. -/
theorem putWindowScreen_no_other_screens_witness :
    ([originScreen] : List Screen).length < 2 ∧
    putWindowScreenRun "next" false (some migratingWindow) [originScreen] = Outcome.abort "NO SCREENS" ∧
    finalWindowFrame (putWindowScreenRun "next" false (some migratingWindow) [originScreen]) migratingWindow.frame = migratingWindow.frame := by
  have H := putWindowScreen_no_other_screens "next" false migratingWindow [originScreen] (by decide)
  exact ⟨by decide, H.1, H.2.2⟩

end PhizeUp

namespace PhizeUp

/-- C7: evaluation of both movement-label lookups at a name with no defined
label ("fullScreen").  Version A's `Movements.get` (phizeup.js:180-182)
returns the name verbatim, as the claim states; but version B's
`Movements.get` (phizeup.js:625-627) calls `.split` on the `undefined`
lookup result and throws a `TypeError` before its `|| direction` fallback
can apply — contradicting both the claim and the code's own comment
"Safely fall back to a plain text label". -/
theorem movements_get_unlabeled_behaviour :
    movementsLookupB "fullScreen" = none ∧
    movementsGetB "fullScreen" = JsResult.typeError ∧
    movementsGet "fullScreen" = "fullScreen" :=
  ⟨rfl, rfl, rfl⟩

/-- C9: the directional feedback label is a function only of the pair
`(sign(newFrame.x - oldFrame.x), sign(newFrame.y - oldFrame.y))`, obtained by
indexing the fixed 3x3 `directions` compass table with those signs; a
positive x-delta with a negative y-delta yields the up-right label (the
source's mojibake-encoded up-right arrow), and a zero delta on both axes
yields the "no movement" label `"o"`. -/
theorem changeDirection_compass_table :
    (∀ n o n2 o2 : Frame, jsSign (n.x - o.x) = jsSign (n2.x - o2.x) →
      jsSign (n.y - o.y) = jsSign (n2.y - o2.y) → changeDirection n o = changeDirection n2 o2) ∧
    (∀ n o : Frame, 0 < n.x - o.x → n.y - o.y < 0 → changeDirection n o = some "‚ÜóÔ∏é") ∧
    (∀ n o : Frame, n.x - o.x = 0 → n.y - o.y = 0 → changeDirection n o = some "o") := by
  refine ⟨?_, ?_, ?_⟩
  · intro n o n2 o2 hx hy
    simp only [changeDirection, hx, hy]
  · intro n o hx hy
    simp only [changeDirection, jsSign_of_pos _ hx, jsSign_of_neg _ hy]
    rfl
  · intro n o hx hy
    simp only [changeDirection, jsSign_of_zero _ hx, jsSign_of_zero _ hy]
    rfl

/-- C9 witness: the compass theorem applied at the concrete delta
`(+120, -40)` (up-right label) and at a zero delta (label `"o"`). -/
theorem changeDirection_compass_table_witness :
    changeDirection { x := 120, y := -40, width := 10, height := 10 } { x := 0, y := 0, width := 10, height := 10 } = some "‚ÜóÔ∏é" ∧
    changeDirection { x := 5, y := 6, width := 1, height := 1 } { x := 5, y := 6, width := 2, height := 2 } = some "o" := by
  constructor
  · exact changeDirection_compass_table.2.1 _ _ (by norm_num) (by norm_num)
  · exact changeDirection_compass_table.2.2 _ _ (by norm_num) (by norm_num)

/-- C10: for every pair of frames with rational coordinates,
`changeDirection` is total and in bounds: both computed table indices
`(sign(dy)+1).toNat` and `(sign(dx)+1).toNat` lie below 3, and the result is
`some` of one of the nine compass labels — the out-of-bounds (`undefined`)
branch of the table access is unreachable. -/
theorem changeDirection_total (n o : Frame) :
    (jsSign (n.y - o.y) + 1).toNat < 3 ∧ (jsSign (n.x - o.x) + 1).toNat < 3 ∧
    ∃ label, changeDirection n o = some label ∧
      label ∈ ["‚ÜñÔ∏é", "‚Üë", "‚ÜóÔ∏é",
               "‚Üê", "o", "‚Üí",
               "‚ÜôÔ∏é", "‚Üì", "‚ÜòÔ∏é"] := by
  rcases jsSign_cases (n.x - o.x) with hx | hx | hx <;>
    rcases jsSign_cases (n.y - o.y) with hy | hy | hy <;>
      simp only [changeDirection, hx, hy] <;>
        exact ⟨by decide, by decide, _, rfl, by decide⟩

end PhizeUp
